import Mathlib

/-!
Verification of the repmgr cluster topology controller (src/repmgr.c) against
its natural-language specification.  Each C function relevant to the claims is
shallowly embedded as a Lean function; results of database probes and external
commands are passed in as explicit inputs, and `exit()` is modelled by an
`Except` error or an `Option ErrCode` field in the outcome.
-/

namespace Repmgr

/-- Result of `is_standby(conn)` (defined in dbutils.c, used throughout
src/repmgr.c): 1 = the server is a standby, 0 = it is a primary,
-1 = the connection was lost.  Spec section 4.1 calls these
Standby / Primary / Unreachable. -/
inductive IsStandbyResult where
  | primary
  | standby
  | unreachable
deriving DecidableEq, Repr, Fintype

/-- The exit codes used by src/repmgr.c (ERR_BAD_CONFIG, ERR_NO_RESTART,
ERR_DB_QUERY, ERR_DB_CON, ERR_BAD_PASSWORD from repmgr.h, which only
declares the numeric values; modelled as an enumeration). -/
inductive ErrCode where
  | badConfig
  | noRestart
  | dbQuery
  | dbCon
  | badPassword
deriving DecidableEq, Repr, Fintype

/-- Result of a `guc_set` / `guc_set_typed` probe (dbutils.c):
1 = the parameter satisfies the requested comparison, 0 = it does not,
-1 = the query itself failed. -/
inductive GucResult where
  | satisfied
  | notMet
  | queryError
deriving DecidableEq, Repr, Fintype

/-- SQL comparison operators passed to `guc_set_typed` by
check_upstream_config (src/repmgr.c lines 2543, 2570, 2628). -/
inductive GucOp where
  | gt
  | ge
deriving DecidableEq, Repr

/-- Modelled from the spec: `guc_set_typed` is defined in dbutils.c, which is
not included under src/.  Per spec section 4.2 it validates a server
parameter against a reference value; the comparison operator and the
reference are passed as strings and applied to the server's current setting
(for the integer-typed parameters used here, an integer comparison).
`setting` is the server's current value of the parameter. -/
def gucSetTypedInt (op : GucOp) (reference : Int) (setting : Int) : GucResult :=
  match op with
  | .gt => if setting > reference then .satisfied else .notMet
  | .ge => if setting ≥ reference then .satisfied else .notMet

instance excDecEq {e a : Type} [DecidableEq e] [DecidableEq a] :
    DecidableEq (Except e a) := fun x y =>
  match x, y with
  | .error u, .error v =>
    if h : u = v then .isTrue (by rw [h]) else .isFalse (fun hh => by cases hh; exact h rfl)
  | .error _, .ok _ => .isFalse (fun hh => by cases hh)
  | .ok _, .error _ => .isFalse (fun hh => by cases hh)
  | .ok u, .ok v =>
    if h : u = v then .isTrue (by rw [h]) else .isFalse (fun hh => by cases hh; exact h rfl)

/-- The running state of check_upstream_config: the `config_ok` flag
(src/repmgr.c line 2505) and the error reports issued so far (`log_err`
calls, identified here by the parameter they concern). -/
structure CheckState where
  config_ok : Bool
  reports : List String
deriving DecidableEq, Repr

/-- The pattern shared by the checks at src/repmgr.c lines 2510-2523
(wal_level), 2570-2594 (wal_keep_segments), 2597-2610 (archive_mode),
2612-2626 (hot_standby) and 2628-2642 (max_wal_senders):
`if (i == 0 || i == -1) { if (i == 0) log_err(...); if (exit_on_error)
exit(ERR_BAD_CONFIG); config_ok = false; }`. -/
def stdCheck (exit_on_error : Bool) (i : GucResult) (param : String)
    (st : CheckState) : Except ErrCode CheckState :=
  if i = .notMet ∨ i = .queryError then
    let st := if i = .notMet then { st with reports := st.reports ++ [param] } else st
    if exit_on_error then .error .badConfig
    else .ok { st with config_ok := false }
  else .ok st

/-- The max_replication_slots check, src/repmgr.c lines 2543-2560.  Unlike
`stdCheck`, the `exit` and the `config_ok = false` are nested inside the
`i == 0` branch, so a query error (i == -1) changes nothing. -/
def slotCountCheck (exit_on_error : Bool) (i : GucResult)
    (st : CheckState) : Except ErrCode CheckState :=
  if i = .notMet ∨ i = .queryError then
    if i = .notMet then
      let st := { st with reports := st.reports ++ ["max_replication_slots"] }
      if exit_on_error then .error .badConfig
      else .ok { st with config_ok := false }
    else .ok st
  else .ok st

/-- The six guc probe results consumed by check_upstream_config, in source
order.  Each field holds what the corresponding `guc_set` /
`guc_set_typed` call would return. -/
structure UpstreamProbes where
  wal_level : GucResult
  max_replication_slots : GucResult
  wal_keep_segments : GucResult
  archive_mode : GucResult
  hot_standby : GucResult
  max_wal_senders : GucResult
deriving DecidableEq, Repr, Fintype

/-- check_upstream_config, src/repmgr.c lines 2501-2645.  `use_replication_slots`
is options.use_replication_slots; `server_version_num` is the caller's server
version; `exit_on_error` is the strict flag.  The probe results stand for the
`guc_set` / `guc_set_typed` calls.  Returns `.error` when the C code calls
`exit(ERR_BAD_CONFIG)`, otherwise the final `config_ok` and the error
reports issued. -/
def check_upstream_config (use_replication_slots : Bool) (server_version_num : Int)
    (exit_on_error : Bool) (p : UpstreamProbes) : Except ErrCode CheckState := do
  let st : CheckState := ⟨true, []⟩
  let st ← stdCheck exit_on_error p.wal_level "wal_level" st
  let st ←
    if use_replication_slots then
      if server_version_num < 90400 then
        -- lines 2528-2539: version too old for replication slots
        let st := { st with reports := st.reports ++ ["server_version_slots"] }
        if exit_on_error then Except.error ErrCode.badConfig
        else Except.ok { st with config_ok := false }
      else
        slotCountCheck exit_on_error p.max_replication_slots st
    else
      stdCheck exit_on_error p.wal_keep_segments "wal_keep_segments" st
  let st ← stdCheck exit_on_error p.archive_mode "archive_mode" st
  let st ← stdCheck exit_on_error p.hot_standby "hot_standby" st
  let st ← stdCheck exit_on_error p.max_wal_senders "max_wal_senders" st
  return st

/-- A check of check_upstream_config "failed" when its probe did not confirm
the requested condition: the guc probe returned 0 (parameter not set as
required) or -1 (the probing query itself failed), or — in replication-slot
mode — the server version does not support slots.  This is the reading under
which the source treats every probe outcome other than success as a failure
(it sets `config_ok = false` for both 0 and -1 in every check except the
slot-count one). -/
def checkFailed (r : GucResult) : Bool := r != .satisfied

/-- The condition under which check_upstream_config actually ends up with
`config_ok = false` (equivalently, exits in strict mode): some check failed,
except that a query error (-1) from the max_replication_slots probe is
ignored (src/repmgr.c lines 2545-2560 nest both the exit and the
`config_ok = false` inside the `i == 0` branch). -/
def upstreamConfigFailure (use_replication_slots : Bool) (server_version_num : Int)
    (p : UpstreamProbes) : Bool :=
  checkFailed p.wal_level ||
  (if use_replication_slots then
     (if server_version_num < 90400 then true
      else p.max_replication_slots == .notMet)
   else checkFailed p.wal_keep_segments) ||
  checkFailed p.archive_mode ||
  checkFailed p.hot_standby ||
  checkFailed p.max_wal_senders

/-- The error reports check_upstream_config issues in one pass, in source
order: one report per check whose probe returned 0 (plus the unconditional
version report in slot mode on a pre-9.4 server).  A probe that returned -1
produces no report (the C code logs only when `i == 0`). -/
def expectedReports (use_replication_slots : Bool) (server_version_num : Int)
    (p : UpstreamProbes) : List String :=
  (if p.wal_level = .notMet then ["wal_level"] else []) ++
  (if use_replication_slots then
     (if server_version_num < 90400 then ["server_version_slots"]
      else if p.max_replication_slots = .notMet then ["max_replication_slots"] else [])
   else if p.wal_keep_segments = .notMet then ["wal_keep_segments"] else []) ++
  (if p.archive_mode = .notMet then ["archive_mode"] else []) ++
  (if p.hot_standby = .notMet then ["hot_standby"] else []) ++
  (if p.max_wal_senders = .notMet then ["max_wal_senders"] else [])

/-! ### Promotion controller (do_standby_promote, src/repmgr.c lines 1203-1314) -/

/-- The variables the promote-confirmation loop leaves behind: the number of
`is_standby` probes performed, the `promote_sucess` flag (spelling as in the
source, line 1219), and the final value of `retval`. -/
structure PollOutcome where
  probes : Nat
  promote_sucess : Bool
  retval : IsStandbyResult
deriving DecidableEq, Repr

/-- The loop at src/repmgr.c lines 1289-1298:
`for (i = 0; i < promote_check_timeout; i += promote_check_interval)
 { retval = is_standby(conn); if (!retval) { promote_sucess = true; break; }
   sleep(promote_check_interval); }`.
`probe k` is what the (k+1)-th `is_standby` call returns; `fuel` is the
number of loop iterations remaining (the loop runs once per value of `i`
below the timeout); `k` counts the probes already made, and `last` is the
current value of `retval`.  `!retval` is true exactly when `retval == 0`,
i.e. the node reported Primary. -/
def pollLoop (probe : Nat → IsStandbyResult) :
    Nat → Nat → IsStandbyResult → PollOutcome
  | 0, k, last => ⟨k, false, last⟩
  | fuel + 1, k, _ =>
    let r := probe k
    if r = .primary then ⟨k + 1, true, r⟩
    else pollLoop probe fuel (k + 1) r

/-- src/repmgr.c line 1217. -/
def promote_check_timeout : Nat := 60

/-- src/repmgr.c line 1218. -/
def promote_check_interval : Nat := 2

/-- Number of iterations of `for (i = 0; i < timeout; i += interval)`:
the number of multiples of `interval` below `timeout`. -/
def promoteIterations (timeout interval : Nat) : Nat :=
  (timeout + interval - 1) / interval

/-- The confirmation poll as run by do_standby_promote: the loop with the
fixed timeout and interval, starting from the `retval` left by the earlier
`is_standby` precondition check (line 1232). -/
def promotePoll (probe : Nat → IsStandbyResult) (initial : IsStandbyResult) :
    PollOutcome :=
  pollLoop probe (promoteIterations promote_check_timeout promote_check_interval) 0 initial

/-- What do_standby_promote reports after the loop (lines 1300-1311):
on `promote_sucess == false`, either "still a standby" (`retval == 1`) or
"connection to node lost" (otherwise); on success, the success notice. -/
inductive PromoteReport where
  | success
  | stillStandby
  | connectionLost
deriving DecidableEq, Repr

/-- The report selection at src/repmgr.c lines 1300-1311. -/
def promoteReport (o : PollOutcome) : PromoteReport :=
  if o.promote_sucess = false then
    (if o.retval = .standby then .stillStandby else .connectionLost)
  else .success

/-- Inputs of do_standby_promote: the results of the probes and external
commands it performs, in source order.  `server_version_ok` is whether
check_server_version (line 1229, strict) passes; `initial_is_standby` is the
`is_standby` result at line 1232; `master_exists` is whether
get_master_connection (line 1243; locatePrimary of spec section 4.1, probing
the registered nodes) found a node reporting Primary; `data_directory_ok` is
the get_pg_setting result (line 1256); `promote_command_ok` is whether
`pg_ctl promote` returned 0 (line 1277); `probe` gives the successive
`is_standby` results inside the confirmation loop. -/
structure PromoteInput where
  server_version_ok : Bool
  initial_is_standby : IsStandbyResult
  master_exists : Bool
  data_directory_ok : Bool
  promote_command_ok : Bool
  probe : Nat → IsStandbyResult

/-- Outcome of do_standby_promote: the exit code if the process called
`exit` (`none` = the function returned normally), whether the external
promote action (`pg_ctl promote`) was invoked, the confirmation-poll
outcome when the loop was reached, and the final report. -/
structure PromoteOutcome where
  exit : Option ErrCode
  promote_invoked : Bool
  poll : Option PollOutcome
  report : Option PromoteReport
deriving DecidableEq, Repr

/-- do_standby_promote, src/repmgr.c lines 1203-1314. -/
def do_standby_promote (inp : PromoteInput) : PromoteOutcome :=
  if inp.server_version_ok = false then ⟨some .badConfig, false, none, none⟩
  else if inp.initial_is_standby = .primary ∨ inp.initial_is_standby = .unreachable then
    -- lines 1232-1240: `if (retval == 0 || retval == -1) ... exit(ERR_BAD_CONFIG)`
    ⟨some .badConfig, false, none, none⟩
  else if inp.master_exists then
    -- lines 1243-1251: an active master already exists
    ⟨some .badConfig, false, none, none⟩
  else if inp.data_directory_ok = false then
    -- lines 1256-1263
    ⟨some .badConfig, false, none, none⟩
  else if inp.promote_command_ok = false then
    -- lines 1272-1282: promote was invoked but returned non-zero
    ⟨some .noRestart, true, none, none⟩
  else
    let o := promotePoll inp.probe inp.initial_is_standby
    ⟨none, true, some o, some (promoteReport o)⟩

/-! ### Version checks and the register / follow controllers -/

/-- check_server_version, src/repmgr.c lines 2465-2489.  `server_version_num`
is what get_server_version (dbutils.c) reports for the connection;
`min_supported` is MIN_SUPPORTED_VERSION_NUM (repmgr.h, kept as a
parameter).  Below the minimum: exit(ERR_BAD_CONFIG) when `exit_on_error`,
otherwise the sentinel -1; else the version itself. -/
def check_server_version (server_version_num : Int) (min_supported : Int)
    (exit_on_error : Bool) : Except ErrCode Int :=
  if server_version_num < min_supported then
    (if exit_on_error then .error .badConfig else .ok (-1))
  else .ok server_version_num

/-- Inputs of do_standby_register (src/repmgr.c lines 732-852), in source
order: the standby's and the master's reported server versions,
MIN_SUPPORTED_VERSION_NUM, the `is_standby` result on the local node
(line 759), whether the repmgr schema exists (line 770), whether
get_master_connection found a master (line 780), the `--force` flag, and
the results of the force-DELETE (line 820) and the registry INSERT
(create_node_record, line 832). -/
structure RegisterInput where
  standby_version : Int
  master_version : Int
  min_supported : Int
  is_standby_res : IsStandbyResult
  schema_exists : Bool
  master_found : Bool
  force : Bool
  delete_ok : Bool
  insert_ok : Bool

/-- Outcome of do_standby_register: the exit code (`none` = returned
normally), whether the version-mismatch error of line 803 was reported, and
whether create_node_record was reached. -/
structure RegisterOutcome where
  exit : Option ErrCode
  version_mismatch_reported : Bool
  registration_attempted : Bool
deriving DecidableEq, Repr

/-- do_standby_register, src/repmgr.c lines 732-852. -/
def do_standby_register (i : RegisterInput) : RegisterOutcome :=
  match check_server_version i.standby_version i.min_supported true with
  | .error e => ⟨some e, false, false⟩
  | .ok standby_version_num =>
    if i.is_standby_res = .primary ∨ i.is_standby_res = .unreachable then
      -- lines 759-767: `if (ret == 0 || ret == -1) ... exit(ERR_BAD_CONFIG)`
      ⟨some .badConfig, false, false⟩
    else if i.schema_exists = false then
      -- lines 770-776
      ⟨some .badConfig, false, false⟩
    else if i.master_found = false then
      -- lines 780-786
      ⟨some .badConfig, false, false⟩
    else
      match check_server_version i.master_version i.min_supported false with
      | .error e => ⟨some e, false, false⟩
      | .ok master_version_num =>
        if master_version_num < 0 then
          -- lines 791-796
          ⟨some .badConfig, false, false⟩
        else if master_version_num / 100 ≠ standby_version_num / 100 then
          -- lines 798-806: the major-version compatibility gate
          ⟨some .badConfig, true, false⟩
        else if i.force ∧ i.delete_ok = false then
          -- lines 810-828
          ⟨some .badConfig, false, false⟩
        else if i.insert_ok then ⟨none, false, true⟩
        else ⟨some .badConfig, false, true⟩  -- lines 845-846

/-- Inputs of do_standby_follow (src/repmgr.c lines 1317-1456), in source
order: the standby's and the new master's reported versions,
MIN_SUPPORTED_VERSION_NUM, the local `is_standby` result (line 1348),
whether the discovery loop found a master (lines 1364-1374), the
`is_standby` result on the found master (line 1384, which must report
Primary), and the results of get_pg_setting (line 1428),
create_recovery_file (line 1438) and the `pg_ctl restart` (line 1448). -/
structure FollowInput where
  standby_version : Int
  master_version : Int
  min_supported : Int
  is_standby_res : IsStandbyResult
  master_found : Bool
  master_is_standby_res : IsStandbyResult
  data_directory_ok : Bool
  recovery_file_ok : Bool
  restart_ok : Bool

/-- Outcome of do_standby_follow: exit code (`none` = returned normally),
whether the version-mismatch error of line 1410 was reported, and whether
create_recovery_file and the service restart were reached. -/
structure FollowOutcome where
  exit : Option ErrCode
  version_mismatch_reported : Bool
  recovery_file_written : Bool
  restart_invoked : Bool
deriving DecidableEq, Repr

/-- do_standby_follow, src/repmgr.c lines 1317-1456. -/
def do_standby_follow (i : FollowInput) : FollowOutcome :=
  match check_server_version i.standby_version i.min_supported true with
  | .error e => ⟨some e, false, false, false⟩
  | .ok standby_version_num =>
    if i.is_standby_res = .primary ∨ i.is_standby_res = .unreachable then
      -- lines 1348-1356
      ⟨some .badConfig, false, false, false⟩
    else if i.master_found = false then
      -- lines 1376-1381
      ⟨some .badConfig, false, false, false⟩
    else if i.master_is_standby_res = .standby ∨ i.master_is_standby_res = .unreachable then
      -- lines 1384-1393: `if (retval)` — the node to follow must be a master
      ⟨some .badConfig, false, false, false⟩
    else
      match check_server_version i.master_version i.min_supported false with
      | .error e => ⟨some e, false, false, false⟩
      | .ok master_version_num =>
        if master_version_num < 0 then
          -- lines 1398-1403
          ⟨some .badConfig, false, false, false⟩
        else if master_version_num / 100 ≠ standby_version_num / 100 then
          -- lines 1405-1413: the major-version compatibility gate
          ⟨some .badConfig, true, false, false⟩
        else if i.data_directory_ok = false then
          -- lines 1428-1435
          ⟨some .badConfig, false, false, false⟩
        else if i.recovery_file_ok = false then
          -- lines 1438-1439
          ⟨some .badConfig, false, true, false⟩
        else if i.restart_ok = false then
          -- lines 1448-1453
          ⟨some .noRestart, false, true, true⟩
        else ⟨none, false, true, true⟩

/-! ### Recovery-configuration generation (create_recovery_file /
write_primary_conninfo, src/repmgr.c lines 1789-1842 and 2398-2443) -/

/-- The global inputs write_primary_conninfo and create_recovery_file read:
runtime_options.masterport / host / username, options.node_name,
the PGPASSWORD environment variable (`none` = unset), the global
`require_password`, runtime_options.min_recovery_apply_delay,
options.use_replication_slots and the global repmgr_slot_name. -/
structure RecoveryInput where
  masterport : String
  host : String
  username : String
  node_name : String
  pgpassword : Option String
  require_password : Bool
  min_recovery_apply_delay : String
  use_replication_slots : Bool
  repmgr_slot_name : String
deriving DecidableEq, Repr

/-- The tail of write_primary_conninfo (src/repmgr.c lines 2421-2441): the
host / user / application_name buffers, each empty or carrying its leading
space, then the conn_buf concatenation in the order port, host, user,
password, application_name, with port falling back to "5432" when
runtime_options.masterport is empty. -/
def write_primary_conninfo_line (i : RecoveryInput) (password_buf : String) : String :=
  let host_buf := if i.host ≠ "" then " host=" ++ i.host else ""
  let user_buf := if i.username ≠ "" then " user=" ++ i.username else ""
  let appname_buf := if i.node_name ≠ "" then " application_name=" ++ i.node_name else ""
  let conn_buf := "port=" ++ (if i.masterport ≠ "" then i.masterport else "5432") ++
                  host_buf ++ user_buf ++ password_buf ++ appname_buf
  "primary_conninfo = '" ++ conn_buf ++ "'\n"

/-- write_primary_conninfo, src/repmgr.c lines 2398-2443.  The password
buffer is filled only from the PGPASSWORD environment variable (lines
2408-2413); when it is unset and `require_password` is set, the process
exits with ERR_BAD_PASSWORD (lines 2414-2419). -/
def write_primary_conninfo (i : RecoveryInput) : Except ErrCode String :=
  match i.pgpassword with
  | some password => .ok (write_primary_conninfo_line i (" password=" ++ password))
  | none =>
    if i.require_password then .error .badPassword
    else .ok (write_primary_conninfo_line i "")

/-- create_recovery_file, src/repmgr.c lines 1789-1842, as the list of lines
written to recovery.conf, in order (the successful-I/O path; a failing
`fopen` or `fputs` returns false with a partial file and is outside this
model). -/
def create_recovery_file (i : RecoveryInput) : Except ErrCode (List String) := do
  let conninfo_line ← write_primary_conninfo i
  return ["standby_mode = 'on'\n", conninfo_line, "recovery_target_timeline = 'latest'\n"] ++
    (if i.min_recovery_apply_delay ≠ "" then
       ["min_recovery_apply_delay = " ++ i.min_recovery_apply_delay ++ "\n"]
     else []) ++
    (if i.use_replication_slots then
       ["primary_slot_name = " ++ i.repmgr_slot_name ++ "\n"]
     else [])

/-- Spec-side definition following the claim's words, for comparison with
the code: "within primary_conninfo every field (port, host, user, password,
application_name) whose source value is empty is omitted, with the password
taken only from the environment credential". -/
def claimed_primary_conninfo_line (i : RecoveryInput) : String :=
  "primary_conninfo = '" ++
    ((if i.masterport ≠ "" then "port=" ++ i.masterport else "") ++
     (if i.host ≠ "" then " host=" ++ i.host else "") ++
     (if i.username ≠ "" then " user=" ++ i.username else "") ++
     (match i.pgpassword with
      | some pw => if pw ≠ "" then " password=" ++ pw else ""
      | none => "") ++
     (if i.node_name ≠ "" then " application_name=" ++ i.node_name else "")) ++
  "'\n"

/-- Spec-side definition following the amended claim's words: the port field
is always present, falling back to 5432 when the master-port source value is
empty, and the password field is present exactly when the environment
credential exists (even with an empty value); the remaining fields are
omitted when their source value is empty. -/
def amended_primary_conninfo_line (i : RecoveryInput) : String :=
  "primary_conninfo = '" ++
    ("port=" ++ (if i.masterport ≠ "" then i.masterport else "5432") ++
     (if i.host ≠ "" then " host=" ++ i.host else "") ++
     (if i.username ≠ "" then " user=" ++ i.username else "") ++
     (match i.pgpassword with
      | some pw => " password=" ++ pw
      | none => "") ++
     (if i.node_name ≠ "" then " application_name=" ++ i.node_name else "")) ++
  "'\n"

/-- Spec-side definition of the full amended file: exactly the lines
standby_mode, primary_conninfo, recovery_target_timeline, optional
min_recovery_apply_delay, optional primary_slot_name, in that order, each
optional line present exactly when its option is set. -/
def amended_recovery_lines (i : RecoveryInput) : List String :=
  ["standby_mode = 'on'\n",
   amended_primary_conninfo_line i,
   "recovery_target_timeline = 'latest'\n"] ++
  (if i.min_recovery_apply_delay ≠ "" then
     ["min_recovery_apply_delay = " ++ i.min_recovery_apply_delay ++ "\n"]
   else []) ++
  (if i.use_replication_slots then
     ["primary_slot_name = " ++ i.repmgr_slot_name ++ "\n"]
   else [])

/-! ### Node records (create_node_record, src/repmgr.c lines 2684-2753) -/

/-- Modelled from the spec: the NO_UPSTREAM_NODE sentinel is defined in
repmgr.h (not under src/) as the "no explicit upstream node id" marker
passed by callers such as do_master_register (line 715). -/
def NO_UPSTREAM_NODE : Int := -1

/-- The values create_node_record interpolates into its INSERT for the
columns that are either a literal or SQL NULL: upstream_node_id and
slot_name (`none` = the SQL keyword NULL). -/
structure NodeRecordInsert where
  upstream_node_id : Option Int
  slot_name : Option String
deriving DecidableEq, Repr

/-- create_node_record, src/repmgr.c lines 2684-2753, reduced to the values
it inserts.  `primary_node_id` abstracts get_primary_node_id(conn,
cluster_name) (dbutils.c; per spec section 3, the id of the cluster's
current primary). -/
def create_node_record (type_ : String) (upstream_node : Int)
    (primary_node_id : Int) (use_replication_slots : Bool)
    (repmgr_slot_name : String) : NodeRecordInsert :=
  let upstream_node_id :=
    if upstream_node = NO_UPSTREAM_NODE then
      -- lines 2692-2707
      (if type_ = "standby" then some primary_node_id else none)
    else some upstream_node
  let slot_name :=
    -- lines 2713-2720
    if use_replication_slots ∧ type_ = "standby" then some repmgr_slot_name else none
  ⟨upstream_node_id, slot_name⟩

/-! ### Master registration (do_master_register, src/repmgr.c lines 623-729) -/

/-- The registry / schema mutations do_master_register can attempt. -/
inductive RegistryMutation where
  | createSchema
  | deleteNodeRecord
  | insertNodeRecord
deriving DecidableEq, Repr

/-- Inputs of do_master_register, in source order: whether
check_server_version (line 639, strict) passes, the `is_standby` result
(line 643, which must report Primary), whether the repmgr schema already
exists (line 655), the `--force` flag, the result of the force-DELETE
(line 687), whether another master is registered (line 699), and the
results of create_schema (line 671) and create_node_record (line 711). -/
structure MasterRegisterInput where
  version_ok : Bool
  is_standby_res : IsStandbyResult
  schema_exists : Bool
  force : Bool
  delete_ok : Bool
  master_exists : Bool
  create_schema_ok : Bool
  insert_ok : Bool
deriving DecidableEq, Repr

/-- Outcome of do_master_register: the exit code (`none` = returned
normally), the schema/registry mutations attempted, in order, and whether
the pre-existing-schema notice of line 660 was reported. -/
structure MasterRegisterOutcome where
  exit : Option ErrCode
  mutations : List RegistryMutation
  schema_exists_reported : Bool
deriving DecidableEq, Repr

/-- do_master_register, src/repmgr.c lines 623-729. -/
def do_master_register (i : MasterRegisterInput) : MasterRegisterOutcome :=
  if i.version_ok = false then ⟨some .badConfig, [], false⟩
  else if i.is_standby_res = .standby ∨ i.is_standby_res = .unreachable then
    -- lines 645-652: `if (ret)` — a standby or an unreachable node is refused
    ⟨some .badConfig, [], false⟩
  else if i.schema_exists ∧ ¬i.force then
    -- lines 658-663: schema already exists and no --force: notice, then exit
    ⟨some .badConfig, [], true⟩
  else if i.schema_exists = false then
    -- lines 665-673: create the schema; on failure the function just returns
    if i.create_schema_ok = false then ⟨none, [.createSchema], false⟩
    else if i.insert_ok then ⟨none, [.createSchema, .insertNodeRecord], false⟩
    else ⟨some .dbQuery, [.createSchema, .insertNodeRecord], false⟩
  else
    -- lines 674-708: schema exists with --force
    if i.delete_ok = false then ⟨some .badConfig, [.deleteNodeRecord], false⟩
    else if i.master_exists then ⟨some .badConfig, [.deleteNodeRecord], false⟩
    else if i.insert_ok then ⟨none, [.deleteNodeRecord, .insertNodeRecord], false⟩
    else ⟨some .dbQuery, [.deleteNodeRecord, .insertNodeRecord], false⟩

/-! ### Monitoring-history cleanup (do_cluster_cleanup, src/repmgr.c
lines 560-620) -/

/-- The history-pruning statement do_cluster_cleanup issues (lines
584-597): a DELETE of samples older than `keep_history` days when that
option is positive, otherwise a TRUNCATE of the whole table. -/
inductive CleanupQuery where
  | deleteOlderThan (days : Int)
  | truncateTable
deriving DecidableEq, Repr

/-- Inputs of do_cluster_cleanup: whether get_master_connection found the
master (line 574), runtime_options.keep_history, and the command results of
the DELETE/TRUNCATE (line 598) and of the VACUUM (line 614).  The VACUUM
result is an input only to show the outcome never depends on it. -/
structure CleanupInput where
  master_found : Bool
  keep_history : Int
  delete_ok : Bool
  vacuum_ok : Bool
deriving DecidableEq, Repr

/-- Outcome of do_cluster_cleanup: exit code (`none` = returned normally),
the history statement issued, and whether the VACUUM was issued. -/
structure CleanupOutcome where
  exit : Option ErrCode
  history_query : Option CleanupQuery
  vacuum_issued : Bool
deriving DecidableEq, Repr

/-- do_cluster_cleanup, src/repmgr.c lines 560-620.  Only the
DELETE/TRUNCATE result is examined (lines 599-606); the VACUUM is issued
and its result discarded (lines 613-618, `PQclear(res)` with no status
check). -/
def do_cluster_cleanup (i : CleanupInput) : CleanupOutcome :=
  if i.master_found = false then ⟨some .dbCon, none, false⟩
  else
    let q := if i.keep_history > 0 then CleanupQuery.deleteOlderThan i.keep_history
             else CleanupQuery.truncateTable
    if i.delete_ok = false then ⟨some .badConfig, some q, false⟩
    else ⟨none, some q, true⟩

/-! ## Helper lemmas about the confirmation-poll loop -/

theorem pollLoop_probes_le (probe : Nat → IsStandbyResult) (fuel k : Nat)
    (last : IsStandbyResult) : (pollLoop probe fuel k last).probes ≤ k + fuel := by
  induction fuel generalizing k last with
  | zero => simp [pollLoop]
  | succ n ih =>
    by_cases h0 : probe k = .primary
    · simp [pollLoop, h0]
    · simp only [pollLoop, h0, if_false]
      have := ih (k + 1) (probe k)
      omega

theorem pollLoop_no_primary (probe : Nat → IsStandbyResult) (fuel k : Nat)
    (last : IsStandbyResult) (h : ∀ j, j < fuel → probe (k + j) ≠ .primary) :
    pollLoop probe fuel k last =
      ⟨k + fuel, false, if fuel = 0 then last else probe (k + fuel - 1)⟩ := by
  induction fuel generalizing k last with
  | zero => simp [pollLoop]
  | succ n ih =>
    have h0 : ¬ probe k = .primary := by
      have := h 0 (by omega); simpa using this
    simp only [pollLoop, h0, if_false]
    have ihh := ih (k + 1) (probe k) (fun j hj => by
      rw [show k + 1 + j = k + (j + 1) by omega]
      exact h (j + 1) (by omega))
    rw [ihh]
    rcases Nat.eq_zero_or_pos n with rfl | hpos
    · simp
    · have e1 : k + 1 + n = k + (n + 1) := by omega
      have e2 : k + 1 + n - 1 = k + (n + 1) - 1 := by omega
      simp [e1, Nat.pos_iff_ne_zero.mp hpos, e2]

theorem pollLoop_success_iff (probe : Nat → IsStandbyResult) (fuel k : Nat)
    (last : IsStandbyResult) :
    (pollLoop probe fuel k last).promote_sucess = true ↔
      ∃ j, j < fuel ∧ probe (k + j) = .primary := by
  induction fuel generalizing k last with
  | zero => simp [pollLoop]
  | succ n ih =>
    by_cases h0 : probe k = .primary
    · simp only [pollLoop, h0, if_true]
      exact ⟨fun _ => ⟨0, by omega, by simpa using h0⟩, fun _ => trivial⟩
    · simp only [pollLoop, h0, if_false]
      rw [ih (k + 1) (probe k)]
      constructor
      · rintro ⟨j, hj, hp⟩
        exact ⟨j + 1, by omega, by rw [show k + (j + 1) = k + 1 + j by omega]; exact hp⟩
      · rintro ⟨j, hj, hp⟩
        rcases Nat.eq_zero_or_pos j with rfl | hjpos
        · exact absurd (by simpa using hp) h0
        · exact ⟨j - 1, by omega, by rw [show k + 1 + (j - 1) = k + j by omega]; exact hp⟩

theorem pollLoop_first_primary (probe : Nat → IsStandbyResult) (fuel k : Nat)
    (last : IsStandbyResult) (j : Nat) (hj : j < fuel) (hp : probe (k + j) = .primary)
    (hmin : ∀ j2, j2 < j → probe (k + j2) ≠ .primary) :
    pollLoop probe fuel k last = ⟨k + j + 1, true, .primary⟩ := by
  induction fuel generalizing k last j with
  | zero => omega
  | succ n ih =>
    by_cases h0 : probe k = .primary
    · have hj0 : j = 0 := by
        by_contra hne
        exact hmin 0 (by omega) (by simpa using h0)
      subst hj0
      simp [pollLoop, h0]
    · have hj1 : 1 ≤ j := by
        rcases Nat.eq_zero_or_pos j with rfl | hpos
        · exact absurd (by simpa using hp) h0
        · exact hpos
      simp only [pollLoop, h0, if_false]
      have := ih (k + 1) (probe k) (j - 1) (by omega)
        (by rw [show k + 1 + (j - 1) = k + j by omega]; exact hp)
        (fun j2 hj2 => by
          rw [show k + 1 + j2 = k + (j2 + 1) by omega]
          exact hmin (j2 + 1) (by omega))
      rw [this, show k + 1 + (j - 1) + 1 = k + j + 1 by omega]

theorem pollLoop_success_retval (probe : Nat → IsStandbyResult) (fuel k : Nat)
    (last : IsStandbyResult)
    (hs : (pollLoop probe fuel k last).promote_sucess = true) :
    (pollLoop probe fuel k last).retval = .primary := by
  induction fuel generalizing k last with
  | zero => simp [pollLoop] at hs
  | succ n ih =>
    by_cases h0 : probe k = .primary
    · simp [pollLoop, h0]
    · simp only [pollLoop, h0, if_false] at hs ⊢
      exact ih (k + 1) (probe k) hs

/-! ## The claims -/

/-- C1: the claim states that in replication-slot mode, on a server that
supports slots, the max_replication_slots check passes iff the setting is
at least 1, in particular at exactly 1.  The code (src/repmgr.c line 2543)
passes the operator ">" with reference "1" to guc_set_typed, so a server
with the setting exactly 1 FAILS the check (config_ok becomes false and the
"at least 1" error is reported), while 2 passes — contradicting the code's
own comment ("non-zero `max_replication_slots` required", line 2540) and
its own error message ("must be set to at least 1", line 2549). -/
theorem C1_max_replication_slots_boundary :
    gucSetTypedInt .gt 1 1 = .notMet ∧
    check_upstream_config true 90400 false
      ⟨.satisfied, gucSetTypedInt .gt 1 1, .satisfied, .satisfied, .satisfied, .satisfied⟩ =
      .ok ⟨false, ["max_replication_slots"]⟩ ∧
    gucSetTypedInt .gt 1 2 = .satisfied ∧
    check_upstream_config true 90400 false
      ⟨.satisfied, gucSetTypedInt .gt 1 2, .satisfied, .satisfied, .satisfied, .satisfied⟩ =
      .ok ⟨true, []⟩ := by
  refine ⟨by decide, by decide, by decide, by decide⟩

/-- C4 counterexample: with replication-slot mode on a slot-capable server,
when the max_replication_slots probe returns a query error (a check that did
not pass, which every other check counts as a failure), the aggregate result
of check_upstream_config is nevertheless `config_ok = true`, and in strict
mode the function does not terminate on it either — refuting both the
"false iff at least one check failed" and the "first failing check
terminates immediately" parts of the claim at this concrete input. -/
theorem C4_counterexample :
    check_upstream_config true 90400 false
      ⟨.satisfied, .queryError, .satisfied, .satisfied, .satisfied, .satisfied⟩ =
      .ok ⟨true, []⟩ ∧
    checkFailed GucResult.queryError = true ∧
    check_upstream_config true 90400 true
      ⟨.satisfied, .queryError, .satisfied, .satisfied, .satisfied, .satisfied⟩ =
      .ok ⟨true, []⟩ := by
  refine ⟨by decide, by decide, by decide⟩

set_option maxRecDepth 4000 in
/-- C4 (amended): in non-strict mode check_upstream_config evaluates every
check without short-circuiting — every check whose probe returned 0 is
individually reported — and its boolean result is false iff at least one
check failed, EXCEPT that a query error (as opposed to an unmet value) from
the max_replication_slots probe is ignored: it neither makes the result
false nor, in strict mode, terminates the function; in strict mode every
other failing check terminates immediately with ERR_BAD_CONFIG. -/
theorem C4_check_aggregation_amended
    (use_replication_slots exit_on_error : Bool) (server_version_num : Int)
    (p : UpstreamProbes) :
    check_upstream_config use_replication_slots server_version_num exit_on_error p =
      if exit_on_error then
        (if upstreamConfigFailure use_replication_slots server_version_num p then
          Except.error ErrCode.badConfig
        else Except.ok ⟨true, []⟩)
      else Except.ok ⟨!(upstreamConfigFailure use_replication_slots server_version_num p),
                      expectedReports use_replication_slots server_version_num p⟩ := by
  revert use_replication_slots exit_on_error p
  by_cases hv : server_version_num < 90400 <;>
    simp only [check_upstream_config, upstreamConfigFailure, expectedReports, checkFailed, hv,
      if_true, if_false, ite_true, ite_false] <;>
    decide

/-- C2: the primary/standby major-version compatibility gate used by standby
register (src/repmgr.c line 799) and standby follow (line 1406) accepts a
version pair iff the two numbers agree after integer division by 100: in any
run that reaches the gate the mismatch error is not reported iff
master / 100 = standby / 100; concretely 90401 and 90402 are compatible
(registration proceeds) while 90300 and 90400 are not (the command exits
with ERR_BAD_CONFIG, reporting the mismatch). -/
theorem C2_version_epoch_compatibility
    (i : RegisterInput) (f : FollowInput)
    (his : i.is_standby_res = .standby) (hsch : i.schema_exists = true)
    (hmf : i.master_found = true)
    (hs : i.min_supported ≤ i.standby_version)
    (hm : i.min_supported ≤ i.master_version)
    (hm0 : 0 ≤ i.master_version)
    (fis : f.is_standby_res = .standby) (fmf : f.master_found = true)
    (fms : f.master_is_standby_res = .primary)
    (fs : f.min_supported ≤ f.standby_version)
    (fm : f.min_supported ≤ f.master_version)
    (fm0 : 0 ≤ f.master_version) :
    ((do_standby_register i).version_mismatch_reported = false ↔
        i.master_version / 100 = i.standby_version / 100) ∧
    ((do_standby_follow f).version_mismatch_reported = false ↔
        f.master_version / 100 = f.standby_version / 100) ∧
    do_standby_register ⟨90402, 90401, 90000, .standby, true, true, false, true, true⟩ =
      ⟨none, false, true⟩ ∧
    do_standby_register ⟨90300, 90400, 90000, .standby, true, true, false, true, true⟩ =
      ⟨some .badConfig, true, false⟩ ∧
    do_standby_follow ⟨90402, 90401, 90000, .standby, true, .primary, true, true, true⟩ =
      ⟨none, false, true, true⟩ ∧
    do_standby_follow ⟨90300, 90400, 90000, .standby, true, .primary, true, true, true⟩ =
      ⟨some .badConfig, true, false, false⟩ := by
  have h1 : ¬ i.standby_version < i.min_supported := not_lt.mpr hs
  have h2 : ¬ i.master_version < i.min_supported := not_lt.mpr hm
  have h3 : ¬ i.master_version < 0 := not_lt.mpr hm0
  have g1 : ¬ f.standby_version < f.min_supported := not_lt.mpr fs
  have g2 : ¬ f.master_version < f.min_supported := not_lt.mpr fm
  have g3 : ¬ f.master_version < 0 := not_lt.mpr fm0
  refine ⟨?_, ?_, by decide, by decide, by decide, by decide⟩
  · by_cases heq : i.master_version / 100 = i.standby_version / 100
    · simp only [do_standby_register, check_server_version, h1, h2, h3, his, hsch, hmf, heq,
        if_false, ite_false, ite_true]
      simp [heq]
      split_ifs <;> simp
    · simp [do_standby_register, check_server_version, h1, h2, h3, his, hsch, hmf, heq]
  · by_cases heq : f.master_version / 100 = f.standby_version / 100
    · simp only [do_standby_follow, check_server_version, g1, g2, g3, fis, fmf, fms, heq,
        if_false, ite_false, ite_true]
      simp [heq]
      split_ifs <;> simp
    · simp [do_standby_follow, check_server_version, g1, g2, g3, fis, fmf, fms, heq]

/-- Witness for C2: the general iff applied at the concrete compatible
pair 90401 / 90402. -/
theorem C2_version_epoch_compatibility_witness :
    (do_standby_register
        ⟨90402, 90401, 90000, .standby, true, true, false, true, true⟩).version_mismatch_reported
        = false ↔
      (90401 : Int) / 100 = (90402 : Int) / 100 :=
  (C2_version_epoch_compatibility
      ⟨90402, 90401, 90000, .standby, true, true, false, true, true⟩
      ⟨90402, 90401, 90000, .standby, true, .primary, true, true, true⟩
      rfl rfl rfl (by decide) (by decide) (by decide)
      rfl rfl rfl (by decide) (by decide) (by decide)).1

/-- C3 counterexample: with an empty master-port source value (and an empty
environment credential) the claim says the port (and password) fields are
omitted from primary_conninfo; the code instead always writes the port
field, defaulting it to 5432 (src/repmgr.c line 2437), and writes the
password field whenever the PGPASSWORD variable exists, even with an empty
value — so at this concrete input the generated line differs from the line
the claim describes. -/
theorem C3_conninfo_counterexample :
    write_primary_conninfo ⟨"", "h", "u", "n", some "", false, "", false, ""⟩ =
      Except.ok "primary_conninfo = 'port=5432 host=h user=u password= application_name=n'\n" ∧
    claimed_primary_conninfo_line ⟨"", "h", "u", "n", some "", false, "", false, ""⟩ =
      "primary_conninfo = ' host=h user=u application_name=n'\n" ∧
    write_primary_conninfo ⟨"", "h", "u", "n", some "", false, "", false, ""⟩ ≠
      Except.ok (claimed_primary_conninfo_line ⟨"", "h", "u", "n", some "", false, "", false, ""⟩) := by
  refine ⟨by decide, by decide, by decide⟩

/-- C3 (amended): whenever the required credential is available
(require_password implies PGPASSWORD is set), create_recovery_file writes
exactly the lines standby_mode, primary_conninfo, recovery_target_timeline,
optional min_recovery_apply_delay and optional primary_slot_name, in that
order, each optional line present iff its option is set; and within
primary_conninfo the host, user and application_name fields are omitted
when their source value is empty, the port field is always present
(defaulting to 5432 when the master-port value is empty), and the password
field is present exactly when the environment credential exists, taken only
from it. -/
theorem C3_recovery_file_amended (i : RecoveryInput)
    (hpw : i.require_password = true → i.pgpassword ≠ none) :
    create_recovery_file i = .ok (amended_recovery_lines i) := by
  rcases hp : i.pgpassword with _ | pw
  · have hrp : i.require_password = false := by
      cases hr : i.require_password
      · rfl
      · exact absurd hp (hpw hr)
    simp [create_recovery_file, write_primary_conninfo, write_primary_conninfo_line,
      amended_recovery_lines, amended_primary_conninfo_line, hp, hrp]
  · simp [create_recovery_file, write_primary_conninfo, write_primary_conninfo_line,
      amended_recovery_lines, amended_primary_conninfo_line, hp]

/-- Witness for C3 (amended) at a concrete input with all options set. -/
theorem C3_recovery_file_amended_witness :
    create_recovery_file ⟨"5433", "node1", "repmgr", "standby2", some "s3cr3t", true,
        "5min", true, "repmgr_slot_2"⟩ =
      .ok (amended_recovery_lines ⟨"5433", "node1", "repmgr", "standby2", some "s3cr3t", true,
        "5min", true, "repmgr_slot_2"⟩) :=
  C3_recovery_file_amended
    ⟨"5433", "node1", "repmgr", "standby2", some "s3cr3t", true, "5min", true, "repmgr_slot_2"⟩
    (by decide)

/-- C5: standby promotion is refused — do_standby_promote exits with
ERR_BAD_CONFIG and never invokes the external promote action — whenever the
node does not report Standby or another reachable registered node reports
Primary; and the promote action is invoked only when both preconditions
hold. -/
theorem C5_promote_preconditions (inp : PromoteInput) :
    (inp.initial_is_standby ≠ .standby ∨ inp.master_exists = true →
      (do_standby_promote inp).exit = some .badConfig ∧
      (do_standby_promote inp).promote_invoked = false) ∧
    ((do_standby_promote inp).promote_invoked = true →
      inp.initial_is_standby = .standby ∧ inp.master_exists = false) := by
  have hx : inp.initial_is_standby = .standby ∨ inp.initial_is_standby = .primary ∨
      inp.initial_is_standby = .unreachable := by
    cases inp.initial_is_standby <;> simp
  constructor
  · intro hpre
    rcases hx with hx | hx | hx
    · rcases hpre with hne | hme
      · exact absurd hx hne
      · cases hv : inp.server_version_ok <;>
          simp [do_standby_promote, hv, hx, hme]
    · cases hv : inp.server_version_ok <;> simp [do_standby_promote, hv, hx]
    · cases hv : inp.server_version_ok <;> simp [do_standby_promote, hv, hx]
  · intro hinv
    rcases hx with hx | hx | hx
    · refine ⟨hx, ?_⟩
      cases hme : inp.master_exists
      · rfl
      · exfalso
        cases hv : inp.server_version_ok <;>
          simp [do_standby_promote, hv, hx, hme] at hinv
    · exfalso
      cases hv : inp.server_version_ok <;> simp [do_standby_promote, hv, hx] at hinv
    · exfalso
      cases hv : inp.server_version_ok <;> simp [do_standby_promote, hv, hx] at hinv

/-- Witness for C5: a node reporting Primary is refused. -/
theorem C5_promote_preconditions_witness :
    (do_standby_promote ⟨true, .primary, false, true, true, fun _ => .standby⟩).exit =
      some .badConfig ∧
    (do_standby_promote ⟨true, .primary, false, true, true,
      fun _ => .standby⟩).promote_invoked = false :=
  (C5_promote_preconditions ⟨true, .primary, false, true, true, fun _ => .standby⟩).1
    (Or.inl (by decide))

/-- C6: when do_standby_promote reaches the confirmation loop, the loop
performs at most timeout / interval probes of `is_standby` (with the default
timeout 60 and interval 2, at most 30), terminates early on the first probe
that reports Primary, and when no probe reports Primary within the window
the function reports a non-success (timeout) outcome and returns normally —
no exit code — rather than crashing or changing further state. -/
theorem C6_promote_poll_bound (inp : PromoteInput)
    (hv : inp.server_version_ok = true)
    (hst : inp.initial_is_standby = .standby)
    (hme : inp.master_exists = false)
    (hdd : inp.data_directory_ok = true)
    (hpc : inp.promote_command_ok = true) :
    (do_standby_promote inp).poll = some (promotePoll inp.probe .standby) ∧
    (promotePoll inp.probe .standby).probes ≤
      promote_check_timeout / promote_check_interval ∧
    (∀ j, j < promote_check_timeout / promote_check_interval →
      inp.probe j = .primary → (∀ j2, j2 < j → inp.probe j2 ≠ .primary) →
      promotePoll inp.probe .standby = ⟨j + 1, true, .primary⟩) ∧
    ((∀ j, j < promote_check_timeout / promote_check_interval →
        inp.probe j ≠ .primary) →
      (promotePoll inp.probe .standby).promote_sucess = false ∧
      (do_standby_promote inp).exit = none ∧
      (do_standby_promote inp).report =
        some (promoteReport (promotePoll inp.probe .standby)) ∧
      promoteReport (promotePoll inp.probe .standby) ≠ .success) := by
  have hout : do_standby_promote inp =
      ⟨none, true, some (promotePoll inp.probe .standby),
        some (promoteReport (promotePoll inp.probe .standby))⟩ := by
    simp [do_standby_promote, hv, hst, hme, hdd, hpc]
  have hdiv : promote_check_timeout / promote_check_interval = 30 := by decide
  have hiter : promoteIterations promote_check_timeout promote_check_interval = 30 := by
    decide
  refine ⟨by rw [hout], ?_, ?_, ?_⟩
  · rw [hdiv]
    unfold promotePoll
    rw [hiter]
    simpa using pollLoop_probes_le inp.probe 30 0 .standby
  · intro j hj hp hminp
    rw [hdiv] at hj
    unfold promotePoll
    rw [hiter]
    have := pollLoop_first_primary inp.probe 30 0 .standby j hj (by simpa using hp)
      (fun j2 hj2 => by simpa using hminp j2 hj2)
    simpa using this
  · intro hnone
    rw [hdiv] at hnone
    have hnp := pollLoop_no_primary inp.probe 30 0 .standby
      (fun j hj => by simpa using hnone j hj)
    have hpoll : promotePoll inp.probe .standby = ⟨30, false, inp.probe 29⟩ := by
      unfold promotePoll
      rw [hiter, hnp]
      simp
    refine ⟨by rw [hpoll], by rw [hout], by rw [hout], ?_⟩
    rw [hpoll]
    simp only [promoteReport]
    split_ifs <;> simp

/-- Witness for C6: a node that keeps reporting Standby yields the full
30-probe poll and a reported still-standby outcome with a normal return. -/
theorem C6_promote_poll_bound_witness :
    (do_standby_promote ⟨true, .standby, false, true, true, fun _ => .standby⟩).exit = none ∧
    (do_standby_promote ⟨true, .standby, false, true, true,
        fun _ => .standby⟩).poll = some (promotePoll (fun _ => .standby) .standby) ∧
    (promotePoll (fun _ => .standby) .standby).promote_sucess = false := by
  have h := C6_promote_poll_bound ⟨true, .standby, false, true, true, fun _ => .standby⟩
    rfl rfl rfl rfl rfl
  have h4 := h.2.2.2 (fun j hj => by simp)
  exact ⟨h4.2.1, h.1, h4.1⟩

/-- C9: during promotion-confirmation polling an Unreachable (connection
lost) probe never terminates the loop early: the loop exits before the
timeout only on a Primary observation (on success the final retval is
Primary); with no Primary observation in the window, polling continues
through all 30 probes; and the distinct connection-lost report is emitted
iff the run timed out and the last probe before the timeout was
Unreachable. -/
theorem C9_unreachable_no_early_exit (inp : PromoteInput)
    (hv : inp.server_version_ok = true)
    (hst : inp.initial_is_standby = .standby)
    (hme : inp.master_exists = false)
    (hdd : inp.data_directory_ok = true)
    (hpc : inp.promote_command_ok = true) :
    ((promotePoll inp.probe .standby).promote_sucess = true →
      (∃ j, j < 30 ∧ inp.probe j = .primary) ∧
      (promotePoll inp.probe .standby).retval = .primary) ∧
    ((∀ j, j < 30 → inp.probe j ≠ .primary) →
      (promotePoll inp.probe .standby).probes = 30) ∧
    ((do_standby_promote inp).report = some PromoteReport.connectionLost ↔
      ((∀ j, j < 30 → inp.probe j ≠ .primary) ∧ inp.probe 29 = .unreachable)) := by
  have hout : do_standby_promote inp =
      ⟨none, true, some (promotePoll inp.probe .standby),
        some (promoteReport (promotePoll inp.probe .standby))⟩ := by
    simp [do_standby_promote, hv, hst, hme, hdd, hpc]
  have hiter : promoteIterations promote_check_timeout promote_check_interval = 30 := by
    decide
  have hsucc : (promotePoll inp.probe .standby).promote_sucess = true ↔
      ∃ j, j < 30 ∧ inp.probe j = .primary := by
    unfold promotePoll
    rw [hiter, pollLoop_success_iff]
    constructor
    · rintro ⟨j, hj, hp⟩; exact ⟨j, hj, by simpa using hp⟩
    · rintro ⟨j, hj, hp⟩; exact ⟨j, hj, by simpa using hp⟩
  have htimeout : ∀ _ : (∀ j, j < 30 → inp.probe j ≠ .primary),
      promotePoll inp.probe .standby = ⟨30, false, inp.probe 29⟩ := by
    intro hnone
    unfold promotePoll
    rw [hiter, pollLoop_no_primary inp.probe 30 0 .standby
      (fun j hj => by simpa using hnone j hj)]
    simp
  refine ⟨?_, ?_, ?_⟩
  · intro hs
    refine ⟨hsucc.mp hs, ?_⟩
    unfold promotePoll at hs ⊢
    rw [hiter] at hs ⊢
    exact pollLoop_success_retval inp.probe 30 0 .standby hs
  · intro hnone
    rw [htimeout hnone]
  · rw [hout]
    constructor
    · intro hrep
      have hrep2 : promoteReport (promotePoll inp.probe .standby) =
          PromoteReport.connectionLost := by
        simpa using hrep
      by_cases hs : (promotePoll inp.probe .standby).promote_sucess = true
      · simp [promoteReport, hs] at hrep2
      · have hnone : ∀ j, j < 30 → inp.probe j ≠ .primary := by
          intro j hj hp
          exact hs (hsucc.mpr ⟨j, hj, hp⟩)
        refine ⟨hnone, ?_⟩
        rw [htimeout hnone] at hrep2
        simp only [promoteReport] at hrep2
        have h29 : inp.probe 29 ≠ .primary := hnone 29 (by omega)
        cases h : inp.probe 29 with
        | primary => exact absurd h h29
        | standby => simp [h] at hrep2
        | unreachable => rfl
    · rintro ⟨hnone, h29⟩
      rw [htimeout hnone]
      simp [promoteReport, h29]

/-- Witness for C9: a node that is Unreachable on every probe yields the
full 30-probe poll and the connection-lost report. -/
theorem C9_unreachable_no_early_exit_witness :
    ((∀ j, j < 30 → (fun _ => IsStandbyResult.unreachable) j ≠ IsStandbyResult.primary) →
      (promotePoll (fun _ => .unreachable) .standby).probes = 30) ∧
    ((do_standby_promote ⟨true, .standby, false, true, true,
        fun _ => .unreachable⟩).report = some PromoteReport.connectionLost ↔
      ((∀ j, j < 30 → (fun _ => IsStandbyResult.unreachable) j ≠ IsStandbyResult.primary) ∧
        (fun _ => IsStandbyResult.unreachable) 29 = IsStandbyResult.unreachable)) := by
  have h := C9_unreachable_no_early_exit ⟨true, .standby, false, true, true,
    fun _ => .unreachable⟩ rfl rfl rfl rfl rfl
  exact ⟨h.2.1, h.2.2⟩

/-- C7: a node record created with role standby and no explicit upstream
(NO_UPSTREAM_NODE) gets the cluster's current primary node id as its
upstream_node_id instead of NULL; a non-standby record created without an
explicit upstream gets NULL. -/
theorem C7_upstream_default (primary_node_id : Int) (slots : Bool) (sn : String)
    (t : String) (ht : t ≠ "standby") :
    (create_node_record "standby" NO_UPSTREAM_NODE primary_node_id
        slots sn).upstream_node_id = some primary_node_id ∧
    (create_node_record t NO_UPSTREAM_NODE primary_node_id
        slots sn).upstream_node_id = none := by
  constructor
  · simp [create_node_record, NO_UPSTREAM_NODE]
  · simp [create_node_record, NO_UPSTREAM_NODE, ht]

/-- Witness for C7: a standby gets upstream 1 (the primary's id), a witness
node gets NULL. -/
theorem C7_upstream_default_witness :
    (create_node_record "standby" NO_UPSTREAM_NODE 1 false "").upstream_node_id = some 1 ∧
    (create_node_record "witness" NO_UPSTREAM_NODE 1 false "").upstream_node_id = none :=
  C7_upstream_default 1 false "" "witness" (by decide)

/-- C8: when master register finds the repmgr schema already present and the
force flag is off, it reports the pre-existing-schema condition and exits
with ERR_BAD_CONFIG having performed no mutation — no schema object created
or dropped, no node record inserted or deleted. -/
theorem C8_master_register_idempotent (i : MasterRegisterInput)
    (hv : i.version_ok = true) (hst : i.is_standby_res = .primary)
    (hsch : i.schema_exists = true) (hf : i.force = false) :
    do_master_register i = ⟨some .badConfig, [], true⟩ := by
  simp [do_master_register, hv, hst, hsch, hf]

/-- Witness for C8 at a concrete input. -/
theorem C8_master_register_idempotent_witness :
    do_master_register ⟨true, .primary, true, false, true, false, true, true⟩ =
      ⟨some .badConfig, [], true⟩ :=
  C8_master_register_idempotent ⟨true, .primary, true, false, true, false, true, true⟩
    rfl rfl rfl rfl

/-- C10: cluster cleanup examines only the outcome of the history
DELETE/TRUNCATE; when it succeeds the command completes normally (no exit
code) with the VACUUM issued, and the whole outcome is independent of
whether the VACUUM succeeds or fails. -/
theorem C10_cleanup_ignores_vacuum (i : CleanupInput)
    (hmf : i.master_found = true) (hdel : i.delete_ok = true) :
    (do_cluster_cleanup i).exit = none ∧
    (do_cluster_cleanup i).vacuum_issued = true ∧
    (∀ v : Bool, do_cluster_cleanup { i with vacuum_ok := v } = do_cluster_cleanup i) := by
  refine ⟨?_, ?_, ?_⟩ <;> simp [do_cluster_cleanup, hmf, hdel]

/-- Witness for C10: a run whose VACUUM fails still completes normally. -/
theorem C10_cleanup_ignores_vacuum_witness :
    (do_cluster_cleanup ⟨true, 0, true, false⟩).exit = none ∧
    (do_cluster_cleanup ⟨true, 0, true, false⟩).vacuum_issued = true ∧
    (∀ v : Bool, do_cluster_cleanup { (⟨true, 0, true, false⟩ : CleanupInput) with
        vacuum_ok := v } = do_cluster_cleanup ⟨true, 0, true, false⟩) :=
  C10_cleanup_ignores_vacuum ⟨true, 0, true, false⟩ rfl rfl

end Repmgr
